import Mathlib

/-!
Shallow embedding of the query-resolution pipeline of `legal-ai-service/main.py`
(the only source file of the repository), together with proofs about the claims
of its specification.

External capabilities (the sentence-transformer embedding + FAISS index, the
BART generation model, and the Selenium case-law scraper) are modelled as an
explicit environment `Env` of fallible functions; the core orchestration logic
is translated function by function from the Python source.  Machine-level
details that the core never inspects (float scores from the index) are carried
as `Int` values; Python strings are Lean `String`s manipulated through their
`List Char` data.
-/

namespace LegalAI

deriving instance DecidableEq for Except

/-! ### Data model -/

/-- One record of `section_data` loaded from `legal_sections.pkl`:
`{act, section_number, full_text}`. -/
structure SectionData where
  act : String
  section_number : String
  full_text : String
deriving DecidableEq

/-- One entry of the list returned by `find_relevant_sections`:
a dict `{'act', 'section_number', 'text', 'score'}`.  The float score
`D[0][i]` from the FAISS index is modelled as an `Int`; the core never
computes with it. -/
structure SectionRec where
  act : String
  section_number : String
  text : String
  score : Int
deriving DecidableEq

/-- A reference dict built on the fresh branch of `process_legal_query`:
`{'act', 'section_number', 'summary', 'full_text'}`. -/
structure Reference where
  act : String
  section_number : String
  summary : String
  full_text : String
deriving DecidableEq

/-- A case dict produced by `fetch_kanoon_results`: `{"title", "url"}`. -/
structure Case where
  title : String
  url : String
deriving DecidableEq

/-- The dict stored in `session['current_context']`:
`{'query', 'answer', 'references', 'cases'}`. -/
structure Context where
  query : String
  answer : String
  references : List Reference
  cases : List Case
deriving DecidableEq

/-- One session value of `ConversationState.sessions`.  The Python fields
`references` and `cases` are initialised to `None` and later hold lists, so
they are `Option`s here; `history` is the list of `(role, text)` pairs. -/
structure Session where
  current_context : Option Context
  references : Option (List Reference)
  cases : Option (List Case)
  history : List (String × String)
deriving DecidableEq

/-- The dict value created by `get_session` for an unseen session id. -/
def freshSession : Session :=
  ⟨none, none, none, []⟩

/-- `ConversationState.sessions`: a dict from session id to session, modelled
as an association list. -/
def Store : Type := List (String × Session)

instance : DecidableEq Store := by
  unfold Store
  infer_instance

/-- Dict lookup `self.sessions[session_id]` / membership test. -/
def storeGet : Store → String → Option Session
  | [], _ => none
  | (k, v) :: rest, sid => if k = sid then some v else storeGet rest sid

/-- Dict assignment `self.sessions[session_id] = ...`. -/
def storeSet : Store → String → Session → Store
  | [], sid, s => [(sid, s)]
  | (k, v) :: rest, sid, s =>
      if k = sid then (sid, s) :: rest else (k, v) :: storeSet rest sid s

/-! ### The external environment

The collaborators consumed by the core (spec section 6).  Each fallible call
is an `Except String` value: `.error` is a raised Python exception with its
message. -/

structure Env where
  /-- `model.encode([query])` followed by `index.search(_, k)`: the zipped
  list of `(score, id)` pairs `zip(D[0], I[0])`, or a raised exception. -/
  encode_search : String → Nat → Except String (List (Int × Nat))
  /-- The `section_data` array, addressable by index id. -/
  section_data : Nat → SectionData
  /-- The BART tokenizer/model pipeline inside `generate_with_bart`'s `try`
  block: prompt and `max_length` in, decoded text out, or a raised
  exception. -/
  gen : String → Nat → Except String String
  /-- The Selenium session inside `fetch_kanoon_results`'s `try` block: the
  `(r.text, r.get_attribute("href"))` pairs of all result links, or a raised
  exception (navigation, element-not-found, timeout). -/
  search_case_law : String → Except String (List (String × String))

/-! ### Sanitizer (`sanitize_query`) -/

/-- The Python whitespace code points: the characters stripped by
`str.strip()` and matched by `re`'s `\s` on `str` patterns. -/
def pyWhitespace : List Char :=
  [Char.ofNat 9, Char.ofNat 10, Char.ofNat 11, Char.ofNat 12, Char.ofNat 13,
   Char.ofNat 28, Char.ofNat 29, Char.ofNat 30, Char.ofNat 31, Char.ofNat 32,
   Char.ofNat 133, Char.ofNat 160, Char.ofNat 5760,
   Char.ofNat 8192, Char.ofNat 8193, Char.ofNat 8194, Char.ofNat 8195,
   Char.ofNat 8196, Char.ofNat 8197, Char.ofNat 8198, Char.ofNat 8199,
   Char.ofNat 8200, Char.ofNat 8201, Char.ofNat 8202,
   Char.ofNat 8232, Char.ofNat 8233, Char.ofNat 8239, Char.ofNat 8287,
   Char.ofNat 12288]

def isPySpace (c : Char) : Bool := pyWhitespace.contains c

/-- Drop trailing whitespace: the right half of `str.strip()`. -/
def dropTrailing (l : List Char) : List Char :=
  (l.reverse.dropWhile isPySpace).reverse

/-- `str.strip()` on the character list. -/
def stripChars (l : List Char) : List Char :=
  dropTrailing (l.dropWhile isPySpace)

/-- The five characters replaced by `html.escape` (with its default
`quote=True`): `&`, `<`, `>`, the double quote and the single quote. -/
def htmlSpecialChars : List Char :=
  ['&', '<', '>', Char.ofNat 34, Char.ofNat 39]

/-- Per-character replacement performed by `html.escape`. -/
def escapeChar (c : Char) : List Char :=
  if c = '&' then "&amp;".toList
  else if c = '<' then "&lt;".toList
  else if c = '>' then "&gt;".toList
  else if c = Char.ofNat 34 then "&quot;".toList
  else if c = Char.ofNat 39 then "&#x27;".toList
  else [c]

/-- `html.escape(s)` on the character list. -/
def htmlEscape (l : List Char) : List Char :=
  (l.map escapeChar).flatten

/-- Worker for `re.sub(r'\s+', ' ', s)`: the flag records whether we are
inside a whitespace run whose single replacement `' '` was already emitted. -/
def collapseAux : List Char → Bool → List Char
  | [], _ => []
  | c :: rest, inRun =>
      if isPySpace c then
        if inRun then collapseAux rest true
        else ' ' :: collapseAux rest true
      else c :: collapseAux rest false

/-- `re.sub(r'\s+', ' ', s)`: replace every maximal whitespace run by a
single space. -/
def collapseWS (l : List Char) : List Char :=
  collapseAux l false

/-- The full body of `sanitize_query` on the character list:
`re.sub(r'\s+', ' ', html.escape(query.strip()))`. -/
def sanitizeL (l : List Char) : List Char :=
  collapseWS (htmlEscape (stripChars l))

/-- `sanitize_query(query)`. -/
def sanitize_query (query : String) : String :=
  String.mk (sanitizeL query.toList)

/-! ### Retriever (`find_relevant_sections`) -/

/-- `find_relevant_sections(query, k)`: embed, search, and join each hit
`(D[0][i], I[0][i])` with its `section_data` record.  A failure of the
embedding/index call propagates. -/
def find_relevant_sections (env : Env) (query : String) (k : Nat) :
    Except String (List SectionRec) :=
  match env.encode_search query k with
  | .error msg => .error msg
  | .ok hits =>
      .ok (hits.map fun hit =>
        ⟨(env.section_data hit.2).act, (env.section_data hit.2).section_number,
         (env.section_data hit.2).full_text, hit.1⟩)

/-! ### Answer generator (`generate_with_bart` and friends) -/

/-- Python slicing `s[:n]`: the first `n` characters. -/
def pySlice (s : String) (n : Nat) : String :=
  String.mk (s.toList.take n)

/-- `generate_with_bart(input_text, max_length)`: any exception from the
underlying generation capability is caught and degrades to `""`. -/
def generate_with_bart (env : Env) (input_text : String) (max_length : Nat) :
    String :=
  match env.gen input_text max_length with
  | .ok text => text
  | .error _ => ""

/-- The prompt built inside `generate_direct_answer`; `if context` is Python
truthiness, i.e. the empty string selects the short prompt. -/
def direct_answer_prompt (query context : String) : String :=
  if context ≠ "" then
    "Generate 3 legal steps for: " ++ query ++ ". Context: " ++ context
  else
    "Legal steps for: " ++ query

/-- `generate_direct_answer(query, context)`: generated text, or the fixed
fallback phrase when generation yields the empty string. -/
def generate_direct_answer (env : Env) (query context : String) : String :=
  if generate_with_bart env (direct_answer_prompt query context) 200 = "" then
    "Immediate legal steps:"
  else
    generate_with_bart env (direct_answer_prompt query context) 200

/-- The dict `{'summary': ...}` returned by `generate_legal_analysis`. -/
structure Analysis where
  summary : String
deriving DecidableEq

/-- `generate_legal_analysis(text, act_name, section_number)`. -/
def generate_legal_analysis (env : Env) (text act_name section_number : String) :
    Analysis :=
  ⟨generate_with_bart env
    ("Explain in one line: " ++ act_name ++ " Section " ++ section_number ++
      " - " ++ pySlice text 1000) 100⟩

/-! ### Case-law fetcher (`fetch_kanoon_results`) -/

/-- `fetch_kanoon_results(query, max_results)`: take the first `max_results`
raw result links and truncate each title to 80 characters; any exception from
the browser session degrades to the empty list. -/
def fetch_kanoon_results (env : Env) (query : String) (max_results : Nat) :
    List Case :=
  match env.search_case_law query with
  | .ok results => (results.take max_results).map fun r => ⟨pySlice r.1 80, r.2⟩
  | .error _ => []

/-! ### Follow-up classifier (`is_follow_up`) -/

/-- `sub in s` for Python strings: some suffix of `l` has `sub` as prefix. -/
def listContainsSub (l sub : List Char) : Bool :=
  (List.range (l.length + 1)).any fun i => sub.isPrefixOf (l.drop i)

/-- Python `sub in s`. -/
def pyContains (s sub : String) : Bool :=
  listContainsSub s.toList sub.toList

/-- `query.lower()`; the continuation markers are ASCII, for which
`Char.toLower` agrees with Python's `str.lower`. -/
def pyLower (s : String) : String :=
  String.mk (s.toList.map Char.toLower)

/-- The fixed lexicon `follow_up_indicators`. -/
def follow_up_indicators : List String :=
  ["follow up", "previous", "explain", "more info", "about that"]

/-- `is_follow_up(query, session)`: false without a prior resolved turn,
otherwise a marker of the lexicon occurs in the lower-cased query. -/
def is_follow_up (query : String) (session : Session) : Bool :=
  match session.current_context with
  | none => false
  | some _ => follow_up_indicators.any fun ind => pyContains (pyLower query) ind

/-! ### Response composer (`format_response`) -/

/-- `s.split('\n')` on the character list (keeps empty pieces). -/
def splitNL (l : List Char) : List (List Char) :=
  l.foldr
    (fun c acc =>
      match acc with
      | [] => [[c]]
      | cur :: rest => if c = '\n' then [] :: cur :: rest else (c :: cur) :: rest)
    [[]]

/-- `[line.strip() for line in s.split('\n') if line.strip()]`. -/
def splitLines (s : String) : List String :=
  ((splitNL s.toList).map fun l => String.mk (stripChars l)).filter fun t => t ≠ ""

/-- One rendered Related-Cases bullet: `f"\n- {case['title'][:50]} ({case['url']})"`. -/
def renderCaseLine (c : Case) : String :=
  "\n- " ++ pySlice c.title 50 ++ " (" ++ c.url ++ ")"

/-- The Related-Cases block appended at the end of `format_response`
(rendered only when `cases` is truthy, i.e. non-empty). -/
def casesSection (cases : List Case) : String :=
  if cases.isEmpty then ""
  else "\n\n🔗 Related Cases:" ++ String.join ((cases.take 2).map renderCaseLine)

/-- `format_response(base_answer, references, cases)`. -/
def format_response (env : Env) (base_answer : String)
    (references : List Reference) (cases : List Case) : String :=
  "🚨 Immediate Steps:\n" ++
      String.intercalate "\n"
        (((splitLines base_answer).take 3).map fun step => "- " ++ step) ++
    "\n\n⚖️ Relevant Provisions:" ++
      String.join ((references.take 3).map fun ref =>
        "\n- " ++ ref.act ++ " Sec " ++ ref.section_number ++ ": " ++ ref.summary) ++
    "\n\n📌 Key Recommendations:" ++
      String.join
        (((splitLines (generate_with_bart env
            ("Generate 3 legal recommendations: " ++ base_answer) 150)).take 3).map
          fun r => "\n- " ++ r) ++
    casesSection cases

/-! ### Session store mutation (`ConversationState`) -/

/-- `ConversationState.get_session`: return the stored session, or create and
store a fresh empty one. -/
def ConversationState.get_session (st : Store) (session_id : String) :
    Store × Session :=
  match storeGet st session_id with
  | some s => (st, s)
  | none => (storeSet st session_id freshSession, freshSession)

/-- `ConversationState.update`: replace `current_context`, `references`,
`cases`, and append the (user, assistant) turn pair to `history`. -/
def ConversationState.update (st : Store) (session_id query answer : String)
    (references : List Reference) (cases : List Case) : Store :=
  storeSet (ConversationState.get_session st session_id).1 session_id
    ⟨some ⟨query, answer, references, cases⟩, some references, some cases,
     (ConversationState.get_session st session_id).2.history ++
       [("user", query), ("assistant", answer)]⟩

/-! ### Query orchestrator (`process_legal_query`) -/

/-- A raised Python exception: either a `fastapi.HTTPException` with status
and detail, or any other exception with its message. -/
inductive PyExc where
  | http (status : Nat) (detail : String)
  | other (msg : String)
deriving DecidableEq

/-- `str(e)`: for a starlette `HTTPException` this is
`f"{status_code}: {detail}"`; for other exceptions the message. -/
def strExc : PyExc → String
  | .http status detail => toString status ++ ": " ++ detail
  | .other msg => msg

/-- Which external collaborator a pipeline step invokes; `try_body` returns
the ordered invocation trace alongside its result. -/
inductive Collab where
  | embeddingSearch
  | generation
  | browserFetch
deriving DecidableEq

/-- The `ResponseModel` pydantic body returned on success. -/
structure ResponseModel where
  answer : String
  references : List Reference
  cases : List Case
  is_follow_up : Bool
  session_id : String
deriving DecidableEq

/-- The follow-up branch of `process_legal_query` (around lines 205-217):
reuse the stored `references`/`cases`, answer from the cached context, and do
not touch the session store.  pydantic rejects `None` for the `List` fields
of `ResponseModel`, which would raise inside the `try` block; that arm is
unreachable from the orchestrator because `update` always sets both fields
together with `current_context`. -/
def follow_branch (env : Env) (st1 : Store) (session : Session)
    (query session_id : String) :
    Except PyExc ResponseModel × Store × List Collab :=
  match session.current_context with
  | some ctx =>
      match session.references, session.cases with
      | some refs, some cs =>
          (.ok ⟨generate_direct_answer env query
              (String.intercalate "\n"
                ["Previous: " ++ ctx.query, "Answer: " ++ ctx.answer]),
            refs, cs, true, session_id⟩,
           st1, [Collab.generation])
      | _, _ =>
          (.error (.other "ResponseModel validation failed"),
           st1, [Collab.generation])
  | none => (.error (.other "TypeError: NoneType is not subscriptable"), st1, [])

/-- The context string built on the fresh branch from the top 2 sections. -/
def fresh_context (sections : List SectionRec) : String :=
  String.intercalate "\n"
    ((sections.take 2).map fun s =>
      s.act ++ " Section " ++ s.section_number ++ ": " ++ s.text)

/-- `base_answer` on the fresh branch. -/
def fresh_answer (env : Env) (query : String) (sections : List SectionRec) :
    String :=
  generate_direct_answer env query (fresh_context sections)

/-- The `references` list assembled on the fresh branch: for each of the top
2 sections, its analysis summary and its text truncated to 300 characters
plus an ellipsis marker. -/
def fresh_references (env : Env) (sections : List SectionRec) : List Reference :=
  (sections.take 2).map fun s =>
    ⟨s.act, s.section_number,
     (generate_legal_analysis env s.text s.act s.section_number).summary,
     pySlice s.text 300 ++ "..."⟩

/-- `formatted_answer` on the fresh branch. -/
def fresh_formatted (env : Env) (query : String) (sections : List SectionRec) :
    String :=
  format_response env (fresh_answer env query sections)
    (fresh_references env sections) (fetch_kanoon_results env query 3)

/-- The fresh branch of `process_legal_query` (lines 219-249): retrieve,
404 when empty, generate, assemble references, fetch cases, compose, update
the session.  Only the retrieval call can raise here; every generation or
browser failure is absorbed below this level. -/
def fresh_branch (env : Env) (st1 : Store) (query session_id : String) :
    Except PyExc ResponseModel × Store × List Collab :=
  match find_relevant_sections env query 5 with
  | .error msg => (.error (.other msg), st1, [Collab.embeddingSearch])
  | .ok sections =>
      if sections.isEmpty then
        (.error (.http 404 "No relevant laws found"), st1, [Collab.embeddingSearch])
      else
        (.ok ⟨fresh_formatted env query sections, fresh_references env sections,
            fetch_kanoon_results env query 3, false, session_id⟩,
         ConversationState.update st1 session_id query
           (fresh_formatted env query sections) (fresh_references env sections)
           (fetch_kanoon_results env query 3),
         [Collab.embeddingSearch, Collab.generation] ++
           (sections.take 2).map (fun _ => Collab.generation) ++
           [Collab.browserFetch, Collab.generation])

/-- The body of the `try` block of `process_legal_query`: session lookup,
sanitization, length check, branch decision.  Returns the outcome, the store
after the request, and the collaborator invocation trace. -/
def try_body (env : Env) (st : Store) (raw_query session_id : String) :
    Except PyExc ResponseModel × Store × List Collab :=
  if (sanitize_query raw_query).length < 3 then
    (.error (.http 400 "Please ask a more detailed question."),
     (ConversationState.get_session st session_id).1, [])
  else if is_follow_up (sanitize_query raw_query)
      (ConversationState.get_session st session_id).2 then
    follow_branch env (ConversationState.get_session st session_id).1
      (ConversationState.get_session st session_id).2
      (sanitize_query raw_query) session_id
  else
    fresh_branch env (ConversationState.get_session st session_id).1
      (sanitize_query raw_query) session_id

/-- The whole `process_legal_query` endpoint.  The blanket
`except Exception as e: raise HTTPException(status_code=500, detail=str(e))`
catches every exception raised inside the `try` block — including the
`HTTPException(400)` and `HTTPException(404)` raised there, since
`HTTPException` derives from `Exception` — and re-raises it as a 500 whose
detail is `str(e)`. -/
def process_legal_query (env : Env) (st : Store) (query session_id : String) :
    Except (Nat × String) ResponseModel × Store × List Collab :=
  match try_body env st query session_id with
  | (.ok resp, st2, tr) => (.ok resp, st2, tr)
  | (.error e, st2, tr) => (.error (500, strExc e), st2, tr)

/-! ### Concrete environments used by witnesses and counterexamples -/

/-- An environment where every collaborator succeeds with fixed data. -/
def testEnv : Env :=
  ⟨fun _ _ => .ok [(0, 0)],
   fun _ => ⟨"Motor Vehicles Act", "166", "Compensation for road accidents"⟩,
   fun _ _ => .ok "Step one\nStep two\nStep three",
   fun _ => .ok [("State v Sharma", "http://indiankanoon.org/doc/1")]⟩

/-- An environment whose index search succeeds with zero hits. -/
def noResultsEnv : Env :=
  ⟨fun _ _ => .ok [],
   fun _ => ⟨"Motor Vehicles Act", "166", "Compensation for road accidents"⟩,
   fun _ _ => .ok "Step one",
   fun _ => .ok []⟩

/-- An environment whose embedding/index call raises. -/
def failRetrEnv : Env :=
  ⟨fun _ _ => .error "faiss index unavailable",
   fun _ => ⟨"Motor Vehicles Act", "166", "Compensation for road accidents"⟩,
   fun _ _ => .ok "Step one",
   fun _ => .ok []⟩

/-- An environment whose generation capability always raises. -/
def failGenEnv : Env :=
  ⟨fun _ _ => .ok [(0, 0)],
   fun _ => ⟨"Motor Vehicles Act", "166", "Compensation for road accidents"⟩,
   fun _ _ => .error "CUDA out of memory",
   fun _ => .ok []⟩

/-- A prior resolved turn for a session used in follow-up scenarios. -/
def ctxA : Context :=
  ⟨"road accident claim", "File an FIR", [], []⟩

/-- A session holding one completed turn. -/
def sessionA : Session :=
  ⟨some ctxA, some [], some [],
   [("user", "road accident claim"), ("assistant", "File an FIR")]⟩

/-- A 60-character case title, within the fetcher's 80-character budget. -/
def title60 : String :=
  String.mk (List.replicate 60 'a')

/-! ### Invariant and observation definitions -/

/-- The spec's session invariant: the `references`/`cases` recorded in
`current_context` coincide with the session's own fields, and the history
consists of whole user/assistant pairs. -/
def SessionInv (s : Session) : Prop :=
  (∀ ctx, s.current_context = some ctx →
      s.references = some ctx.references ∧ s.cases = some ctx.cases) ∧
  s.history.length % 2 = 0

/-- Every session reachable through the store satisfies the invariant. -/
def StoreInv (st : Store) : Prop :=
  ∀ sid s, storeGet st sid = some s → SessionInv s

/-- Whether a request outcome is a success marked as a follow-up. -/
def respIsFollowUp {ε : Type} : Except ε ResponseModel → Bool
  | .ok r => r.is_follow_up
  | .error _ => false

/-- The first character, if any, is not Python whitespace. -/
def headNotSpace : List Char → Bool
  | [] => true
  | c :: _ => !isPySpace c

/-- The last character, if any, is not Python whitespace. -/
def lastNotSpace : List Char → Bool
  | [] => true
  | c :: rest => if rest.isEmpty then !isPySpace c else lastNotSpace rest

/-- A whitespace character is admissible in sanitized output only as a
single `' '` followed by a non-whitespace character. -/
def okSpace (c : Char) (rest : List Char) : Bool :=
  !isPySpace c || (c = ' ' && !rest.isEmpty && headNotSpace rest)

/-- Every whitespace character of the list is a single `' '` followed by a
non-whitespace character (so in particular the list has no trailing
whitespace and no two adjacent whitespace characters). -/
def normTail : List Char → Bool
  | [] => true
  | c :: rest => okSpace c rest && normTail rest

/-! ### Store lemmas -/

theorem storeGet_storeSet_self (st : Store) (sid : String) (v : Session) :
    storeGet (storeSet st sid v) sid = some v := by
  induction st with
  | nil => simp [storeGet, storeSet]
  | cons kv rest ih =>
      obtain ⟨k, w⟩ := kv
      by_cases hk : k = sid
      · simp [storeGet, storeSet, hk]
      · simp [storeGet, storeSet, hk, ih]

theorem storeGet_storeSet_ne (st : Store) (sid sid' : String) (v : Session)
    (h : sid' ≠ sid) :
    storeGet (storeSet st sid v) sid' = storeGet st sid' := by
  have h' : ¬ sid = sid' := fun he => h he.symm
  induction st with
  | nil => simp [storeGet, storeSet, h']
  | cons kv rest ih =>
      obtain ⟨k, w⟩ := kv
      by_cases hk : k = sid
      · subst hk
        simp [storeGet, storeSet, h']
      · simp [storeGet, storeSet, hk, ih]

/-! ### The session invariant (claim C9 infrastructure) -/

theorem freshSession_inv : SessionInv freshSession :=
  ⟨fun _ h => Option.noConfusion h, rfl⟩

theorem StoreInv_storeSet (st : Store) (sid : String) (v : Session)
    (h : StoreInv st) (hv : SessionInv v) : StoreInv (storeSet st sid v) := by
  intro sid' s' hs'
  by_cases he : sid' = sid
  · subst he
    rw [storeGet_storeSet_self] at hs'
    cases hs'
    exact hv
  · rw [storeGet_storeSet_ne st sid sid' v he] at hs'
    exact h sid' s' hs'

theorem get_session_fst_inv (st : Store) (sid : String) (h : StoreInv st) :
    StoreInv (ConversationState.get_session st sid).1 := by
  unfold ConversationState.get_session
  cases hg : storeGet st sid with
  | some s => exact h
  | none => exact StoreInv_storeSet st sid freshSession h freshSession_inv

theorem get_session_snd_inv (st : Store) (sid : String) (h : StoreInv st) :
    SessionInv (ConversationState.get_session st sid).2 := by
  unfold ConversationState.get_session
  cases hg : storeGet st sid with
  | some s => exact h sid s hg
  | none => exact freshSession_inv

theorem update_store_inv (st : Store) (sid q a : String)
    (refs : List Reference) (cs : List Case) (h : StoreInv st) :
    StoreInv (ConversationState.update st sid q a refs cs) := by
  unfold ConversationState.update
  apply StoreInv_storeSet _ _ _ (get_session_fst_inv st sid h)
  constructor
  · intro ctx hctx
    cases hctx
    exact ⟨rfl, rfl⟩
  · have heven := (get_session_snd_inv st sid h).2
    simp only [List.length_append, List.length_cons, List.length_nil]
    omega

/-! ### Branch-level lemmas about the orchestrator -/

theorem follow_branch_store (env : Env) (st1 : Store) (session : Session)
    (query sid : String) :
    (follow_branch env st1 session query sid).2.1 = st1 := by
  unfold follow_branch
  cases session.current_context with
  | none => rfl
  | some ctx =>
      cases session.references with
      | none => cases session.cases <;> rfl
      | some refs => cases session.cases <;> rfl

theorem fresh_branch_store_inv (env : Env) (st1 : Store) (q sid : String)
    (h : StoreInv st1) : StoreInv (fresh_branch env st1 q sid).2.1 := by
  unfold fresh_branch
  split
  · exact h
  · next secs heq =>
      split
      · exact h
      · exact update_store_inv st1 sid q (fresh_formatted env q secs)
          (fresh_references env secs) (fetch_kanoon_results env q 3) h

theorem try_body_store_inv (env : Env) (st : Store) (q sid : String)
    (h : StoreInv st) : StoreInv (try_body env st q sid).2.1 := by
  unfold try_body
  by_cases h1 : (sanitize_query q).length < 3
  · rw [if_pos h1]
    exact get_session_fst_inv st sid h
  · rw [if_neg h1]
    by_cases h2 : is_follow_up (sanitize_query q)
        (ConversationState.get_session st sid).2 = true
    · rw [if_pos h2, follow_branch_store]
      exact get_session_fst_inv st sid h
    · rw [if_neg h2]
      exact fresh_branch_store_inv env _ _ _ (get_session_fst_inv st sid h)

theorem process_store_eq (env : Env) (st : Store) (q sid : String) :
    (process_legal_query env st q sid).2.1 = (try_body env st q sid).2.1 := by
  unfold process_legal_query
  cases htb : try_body env st q sid with
  | mk r p =>
      cases p with
      | mk st2 tr => cases r <;> rfl

theorem process_flag_eq (env : Env) (st : Store) (q sid : String) :
    respIsFollowUp (process_legal_query env st q sid).1 =
      respIsFollowUp (try_body env st q sid).1 := by
  unfold process_legal_query
  cases htb : try_body env st q sid with
  | mk r p =>
      cases p with
      | mk st2 tr => cases r <;> rfl

theorem get_session_eq_of_follow_up (st : Store) (sid q : String)
    (h : is_follow_up q (ConversationState.get_session st sid).2 = true) :
    (ConversationState.get_session st sid).1 = st := by
  unfold ConversationState.get_session at h ⊢
  cases hg : storeGet st sid with
  | some s => rfl
  | none =>
      rw [hg] at h
      exact absurd h (by simp [is_follow_up, freshSession])

theorem fresh_branch_not_follow_up (env : Env) (st1 : Store) (q sid : String) :
    respIsFollowUp (fresh_branch env st1 q sid).1 = false := by
  unfold fresh_branch
  split
  · rfl
  · split
    · rfl
    · rfl

/-! ### Sanitizer lemmas (claim C3 infrastructure) -/

theorem bnot_true {b : Bool} (h : (!b) = true) : b = false := by
  cases b
  · rfl
  · exact absurd h (by simp)

theorem headNotSpace_dropWhile (l : List Char) :
    headNotSpace (l.dropWhile isPySpace) = true := by
  induction l with
  | nil => rfl
  | cons c rest ih =>
      by_cases hc : isPySpace c = true
      · simp only [List.dropWhile, hc]
        exact ih
      · simp only [List.dropWhile, Bool.not_eq_true] at hc
        simp only [List.dropWhile, hc]
        simp [headNotSpace, hc]

theorem dropTrailing_append (l : List Char) :
    dropTrailing l ++ (l.reverse.takeWhile isPySpace).reverse = l := by
  unfold dropTrailing
  rw [← List.reverse_append]
  have he : l.reverse.takeWhile isPySpace ++ l.reverse.dropWhile isPySpace =
      l.reverse := by
    simp [List.takeWhile_append_dropWhile]
  rw [he, List.reverse_reverse]

theorem headNotSpace_of_append (u t l : List Char) (he : u ++ t = l)
    (h : headNotSpace l = true) : headNotSpace u = true := by
  cases u with
  | nil => rfl
  | cons c u' =>
      subst he
      exact h

theorem stripChars_headNotSpace (l : List Char) :
    headNotSpace (stripChars l) = true :=
  headNotSpace_of_append _ _ _ (dropTrailing_append (l.dropWhile isPySpace))
    (headNotSpace_dropWhile l)

theorem headNotSpace_append_left (xs ys : List Char) (h : xs ≠ []) :
    headNotSpace (xs ++ ys) = headNotSpace xs := by
  cases xs with
  | nil => exact absurd rfl h
  | cons c t => rfl

theorem lastNotSpace_eq_headNotSpace_reverse (l : List Char) :
    lastNotSpace l = headNotSpace l.reverse := by
  induction l with
  | nil => rfl
  | cons c rest ih =>
      cases rest with
      | nil => rfl
      | cons d t =>
          have hne : (d :: t).reverse ≠ [] := by simp
          calc lastNotSpace (c :: d :: t) = lastNotSpace (d :: t) := by
                simp [lastNotSpace]
            _ = headNotSpace (d :: t).reverse := ih
            _ = headNotSpace ((d :: t).reverse ++ [c]) :=
                (headNotSpace_append_left _ _ hne).symm
            _ = headNotSpace (c :: d :: t).reverse := by
                conv_rhs => rw [List.reverse_cons]

theorem stripChars_lastNotSpace (l : List Char) :
    lastNotSpace (stripChars l) = true := by
  rw [lastNotSpace_eq_headNotSpace_reverse]
  unfold stripChars dropTrailing
  rw [List.reverse_reverse]
  exact headNotSpace_dropWhile _

theorem mem_dropWhile (l : List Char) (c : Char)
    (h : c ∈ l.dropWhile isPySpace) : c ∈ l := by
  have he : l.takeWhile isPySpace ++ l.dropWhile isPySpace = l := by
    simp [List.takeWhile_append_dropWhile]
  rw [← he]
  exact List.mem_append_right _ h

theorem mem_dropTrailing (l : List Char) (c : Char)
    (h : c ∈ dropTrailing l) : c ∈ l := by
  have he := dropTrailing_append l
  rw [← he]
  exact List.mem_append_left _ h

theorem mem_stripChars (l : List Char) (c : Char) (h : c ∈ stripChars l) :
    c ∈ l :=
  mem_dropWhile l c (mem_dropTrailing (l.dropWhile isPySpace) c h)

theorem collapseAux_cons_space_true (d : Char) (rest : List Char)
    (hd : isPySpace d = true) :
    collapseAux (d :: rest) true = collapseAux rest true := by
  simp [collapseAux, hd]

theorem collapseAux_cons_space_false (d : Char) (rest : List Char)
    (hd : isPySpace d = true) :
    collapseAux (d :: rest) false = ' ' :: collapseAux rest true := by
  simp [collapseAux, hd]

theorem collapseAux_cons_nonspace (d : Char) (rest : List Char) (b : Bool)
    (hd : isPySpace d = false) :
    collapseAux (d :: rest) b = d :: collapseAux rest false := by
  simp [collapseAux, hd]

theorem mem_collapseAux (l : List Char) :
    ∀ b c, c ∈ collapseAux l b → c ∈ l ∨ c = ' ' := by
  induction l with
  | nil =>
      intro b c h
      exact absurd h (by simp [collapseAux])
  | cons d rest ih =>
      intro b c h
      by_cases hd : isPySpace d = true
      · cases b with
        | true =>
            rw [collapseAux_cons_space_true d rest hd] at h
            rcases ih true c h with hm | hs
            · exact Or.inl (List.mem_cons_of_mem d hm)
            · exact Or.inr hs
        | false =>
            rw [collapseAux_cons_space_false d rest hd] at h
            rcases List.mem_cons.mp h with h1 | h1
            · exact Or.inr h1
            · rcases ih true c h1 with hm | hs
              · exact Or.inl (List.mem_cons_of_mem d hm)
              · exact Or.inr hs
      · rw [Bool.not_eq_true] at hd
        rw [collapseAux_cons_nonspace d rest b hd] at h
        rcases List.mem_cons.mp h with h1 | h1
        · exact Or.inl (h1 ▸ List.mem_cons_self d rest)
        · rcases ih false c h1 with hm | hs
          · exact Or.inl (List.mem_cons_of_mem d hm)
          · exact Or.inr hs

theorem collapseAux_true_headNotSpace (l : List Char) :
    headNotSpace (collapseAux l true) = true := by
  induction l with
  | nil => rfl
  | cons d rest ih =>
      by_cases hd : isPySpace d = true
      · rw [collapseAux_cons_space_true d rest hd]
        exact ih
      · rw [Bool.not_eq_true] at hd
        rw [collapseAux_cons_nonspace d rest true hd]
        simp [headNotSpace, hd]

theorem collapseAux_ne_nil (l : List Char) :
    ∀ b c, c ∈ l → isPySpace c = false → collapseAux l b ≠ [] := by
  induction l with
  | nil =>
      intro b c hc _
      exact absurd hc (List.not_mem_nil c)
  | cons d rest ih =>
      intro b c hc hcs
      by_cases hd : isPySpace d = true
      · have hcr : c ∈ rest := by
          rcases List.mem_cons.mp hc with h1 | h1
          · subst h1
            rw [hd] at hcs
            exact absurd hcs (by simp)
          · exact h1
        cases b with
        | true =>
            rw [collapseAux_cons_space_true d rest hd]
            exact ih true c hcr hcs
        | false =>
            rw [collapseAux_cons_space_false d rest hd]
            simp
      · rw [Bool.not_eq_true] at hd
        rw [collapseAux_cons_nonspace d rest b hd]
        simp

theorem exists_nonspace_of_lastNotSpace (l : List Char) :
    lastNotSpace l = true → l ≠ [] → ∃ c, c ∈ l ∧ isPySpace c = false := by
  induction l with
  | nil =>
      intro _ hne
      exact absurd rfl hne
  | cons d rest ih =>
      intro h _
      cases rest with
      | nil =>
          refine ⟨d, List.mem_cons_self d [], ?_⟩
          have h1 : (!isPySpace d) = true := by
            simpa [lastNotSpace] using h
          exact bnot_true h1
      | cons e t =>
          have h' : lastNotSpace (e :: t) = true := by
            simpa [lastNotSpace] using h
          obtain ⟨c, hc, hcs⟩ := ih h' (by simp)
          exact ⟨c, List.mem_cons_of_mem d hc, hcs⟩

theorem collapseAux_normTail (l : List Char) :
    ∀ b, lastNotSpace l = true → normTail (collapseAux l b) = true := by
  induction l with
  | nil =>
      intro b _
      rfl
  | cons d rest ih =>
      intro b hl
      cases rest with
      | nil =>
          have hd : isPySpace d = false := by
            have h1 : (!isPySpace d) = true := by
              simpa [lastNotSpace] using hl
            exact bnot_true h1
          rw [collapseAux_cons_nonspace d [] b hd]
          simp [collapseAux, normTail, okSpace, hd]
      | cons e t =>
          have hl' : lastNotSpace (e :: t) = true := by
            simpa [lastNotSpace] using hl
          by_cases hd : isPySpace d = true
          · cases b with
            | true =>
                rw [collapseAux_cons_space_true d (e :: t) hd]
                exact ih true hl'
            | false =>
                rw [collapseAux_cons_space_false d (e :: t) hd]
                have hnt := ih true hl'
                have hhead := collapseAux_true_headNotSpace (e :: t)
                obtain ⟨c, hc, hcs⟩ :=
                  exists_nonspace_of_lastNotSpace (e :: t) hl' (by simp)
                have hne := collapseAux_ne_nil (e :: t) true c hc hcs
                cases hout : collapseAux (e :: t) true with
                | nil => exact absurd hout hne
                | cons f fs =>
                    rw [hout] at hnt hhead
                    have hok : okSpace ' ' (f :: fs) = true := by
                      simp [okSpace, hhead, show isPySpace ' ' = true from by decide]
                    have hstep : normTail (' ' :: f :: fs) =
                        (okSpace ' ' (f :: fs) && normTail (f :: fs)) := rfl
                    rw [hstep, hok, hnt]
                    rfl
          · rw [Bool.not_eq_true] at hd
            rw [collapseAux_cons_nonspace d (e :: t) b hd]
            have hnt := ih false hl'
            simp [normTail, okSpace, hd, hnt]

theorem normTail_lastNotSpace (l : List Char) (h : normTail l = true) :
    lastNotSpace l = true := by
  induction l with
  | nil => rfl
  | cons d rest ih =>
      have hok : okSpace d rest = true ∧ normTail rest = true := by
        simpa [normTail] using h
      cases rest with
      | nil =>
          have h1 : (!isPySpace d) = true := by
            simpa [okSpace] using hok.1
          simp [lastNotSpace, bnot_true h1]
      | cons e t =>
          have h2 := ih hok.2
          simpa [lastNotSpace] using h2

theorem dropWhile_eq_self_of_headNotSpace (l : List Char)
    (h : headNotSpace l = true) : l.dropWhile isPySpace = l := by
  cases l with
  | nil => rfl
  | cons c rest =>
      have hc : isPySpace c = false := bnot_true h
      simp [List.dropWhile, hc]

theorem stripChars_eq_self (l : List Char) (hh : headNotSpace l = true)
    (hl : lastNotSpace l = true) : stripChars l = l := by
  unfold stripChars dropTrailing
  rw [dropWhile_eq_self_of_headNotSpace l hh]
  rw [dropWhile_eq_self_of_headNotSpace l.reverse
    (by rw [← lastNotSpace_eq_headNotSpace_reverse]; exact hl)]
  exact List.reverse_reverse l

theorem collapseAux_eq_self (l : List Char) :
    ∀ b, normTail l = true → (b = true → headNotSpace l = true) →
      collapseAux l b = l := by
  induction l with
  | nil =>
      intro b _ _
      rfl
  | cons d rest ih =>
      intro b hn hb
      have hok : okSpace d rest = true ∧ normTail rest = true := by
        simpa [normTail] using hn
      by_cases hd : isPySpace d = true
      · have hb' : b = false := by
          cases b
          · rfl
          · exfalso
            have h2 := hb rfl
            rw [show headNotSpace (d :: rest) = !isPySpace d from rfl, hd] at h2
            simp at h2
        subst hb'
        have h1 : (d = ' ' ∧ rest.isEmpty = false) ∧ headNotSpace rest = true := by
          have hx := hok.1
          rw [okSpace, hd] at hx
          simpa using hx
        rw [collapseAux_cons_space_false d rest hd]
        rw [ih true hok.2 (fun _ => h1.2)]
        rw [h1.1.1]
      · rw [Bool.not_eq_true] at hd
        rw [collapseAux_cons_nonspace d rest b hd]
        rw [ih false hok.2 (fun hx => Bool.noConfusion hx)]

theorem escapeChar_eq_self (c : Char) (h : c ∉ htmlSpecialChars) :
    escapeChar c = [c] := by
  simp [htmlSpecialChars] at h
  simp [escapeChar, h.1, h.2.1, h.2.2.1, h.2.2.2.1, h.2.2.2.2]

theorem htmlEscape_eq_self (l : List Char)
    (h : ∀ c ∈ l, c ∉ htmlSpecialChars) : htmlEscape l = l := by
  induction l with
  | nil => rfl
  | cons c rest ih =>
      unfold htmlEscape
      rw [List.map_cons, List.flatten_cons]
      rw [escapeChar_eq_self c (h c (List.mem_cons_self c rest))]
      have ih' := ih (fun d hd => h d (List.mem_cons_of_mem c hd))
      unfold htmlEscape at ih'
      rw [ih']
      rfl

theorem sanitizeL_idem (l : List Char) (h : ∀ c ∈ l, c ∉ htmlSpecialChars) :
    sanitizeL (sanitizeL l) = sanitizeL l := by
  have hstrip : ∀ c ∈ stripChars l, c ∉ htmlSpecialChars :=
    fun c hc => h c (mem_stripChars l c hc)
  have he1 : htmlEscape (stripChars l) = stripChars l :=
    htmlEscape_eq_self _ hstrip
  have hout : sanitizeL l = collapseWS (stripChars l) := by
    unfold sanitizeL
    rw [he1]
  have hh : headNotSpace (collapseWS (stripChars l)) = true := by
    unfold collapseWS
    cases hsc : stripChars l with
    | nil => rfl
    | cons c rest =>
        have hc : isPySpace c = false := by
          have hns := stripChars_headNotSpace l
          rw [hsc] at hns
          exact bnot_true hns
        rw [collapseAux_cons_nonspace c rest false hc]
        simp [headNotSpace, hc]
  have hn : normTail (collapseWS (stripChars l)) = true :=
    collapseAux_normTail (stripChars l) false (stripChars_lastNotSpace l)
  have hl2 : lastNotSpace (collapseWS (stripChars l)) = true :=
    normTail_lastNotSpace _ hn
  have hmem : ∀ c ∈ collapseWS (stripChars l), c ∉ htmlSpecialChars := by
    intro c hc
    rcases mem_collapseAux (stripChars l) false c hc with hm | hs
    · exact hstrip c hm
    · subst hs
      decide
  rw [hout]
  unfold sanitizeL
  rw [stripChars_eq_self _ hh hl2, htmlEscape_eq_self _ hmem]
  exact collapseAux_eq_self _ false hn (fun hb => Bool.noConfusion hb)

/-! ### Claim C3 -/

/-- C3 counterexample: sanitization is not idempotent, because `html.escape`
re-escapes its own output: `&` sanitizes to `&amp;`, which sanitizes to
`&amp;amp;`. -/
theorem C3_counterexample :
    sanitize_query (sanitize_query "&") ≠ sanitize_query "&" := by decide

/-- C3 (amended): sanitization is idempotent on every string containing none
of the five characters replaced by HTML escaping (`&`, `<`, `>`, the double
quote and the single quote); the counterexample `&` shows the restriction is
necessary. -/
theorem C3_sanitize_idempotent_without_specials (s : String)
    (h : ∀ c ∈ s.toList, c ∉ htmlSpecialChars) :
    sanitize_query (sanitize_query s) = sanitize_query s :=
  congrArg String.mk (sanitizeL_idem s.toList h)

theorem C3_sanitize_idempotent_without_specials_witness :
    sanitize_query (sanitize_query "  what   should I do  ") =
      sanitize_query "  what   should I do  " :=
  C3_sanitize_idempotent_without_specials "  what   should I do  " (by decide)

/-! ### Composer lemmas and claim C4 -/

theorem str_append_empty (s : String) : s ++ "" = s := by
  cases s with
  | mk data =>
      show String.mk (data ++ []) = String.mk data
      rw [List.append_nil]

set_option maxRecDepth 4000 in
/-- C4 counterexample: the composer renders `case['title'][:50]`, not the
fetcher's 80-character-truncated title: with a 60-character title (within
the fetcher's budget) the composed response does not contain the title at
all, so the Related-Cases line is not of the claimed form
`{truncated-to-80 title} ({url})`. -/
theorem C4_counterexample :
    pyContains
      (format_response testEnv "step one" [] [⟨title60, "http://k"⟩])
      title60 = false := by
  decide

/-- C4 (amended): for every composed response with a non-empty cases list,
the Related Cases section renders up to 2 lines of the form
`{title truncated to at most 50 characters} ({url})` — the composer further
truncates the fetcher's 80-character title to 50 characters. -/
theorem C4_related_cases_rendering (env : Env) (base_answer : String)
    (references : List Reference) (cases : List Case)
    (h : cases.isEmpty = false) :
    format_response env base_answer references cases =
      format_response env base_answer references [] ++
        "\n\n🔗 Related Cases:" ++
        String.join ((cases.take 2).map renderCaseLine) ∧
    ∀ c ∈ cases.take 2, (pySlice c.title 50).length ≤ 50 := by
  constructor
  · unfold format_response casesSection
    rw [h]
    simp [str_append_empty, String.append_assoc]
  · intro c _
    show (c.title.toList.take 50).length ≤ 50
    exact List.length_take_le 50 c.title.toList

theorem C4_related_cases_rendering_witness :
    (format_response testEnv "step one" []
        [(⟨"State v Sharma", "http://k"⟩ : Case)] =
      format_response testEnv "step one" [] [] ++
        "\n\n🔗 Related Cases:" ++
        String.join
          (([(⟨"State v Sharma", "http://k"⟩ : Case)].take 2).map
            renderCaseLine)) ∧
    ∀ c ∈ ([(⟨"State v Sharma", "http://k"⟩ : Case)].take 2),
      (pySlice c.title 50).length ≤ 50 :=
  C4_related_cases_rendering testEnv "step one" []
    [⟨"State v Sharma", "http://k"⟩] rfl

/-! ### Claim C1 -/

/-- C1: the claim says a too-short query yields HTTP 400 and an empty
retrieval yields HTTP 404.  The code's blanket `except Exception` clause
catches the `HTTPException(400)`/`HTTPException(404)` it raised itself and
re-raises them as HTTP 500 wrapping `str(e)`, so the caller observes 500 in
both situations: a code bug (the raised status codes show the intent). -/
theorem C1_error_statuses_collapse_to_500 :
    (process_legal_query testEnv [] "hi" "default").1 =
      .error (500, "400: Please ask a more detailed question.") ∧
    (process_legal_query noResultsEnv [] "What is the penalty for theft"
        "default").1 =
      .error (500, "404: No relevant laws found") :=
  ⟨rfl, rfl⟩

/-! ### Claim C2 -/

/-- C2 counterexample: on a follow-up request the code returns without
calling `ConversationState.update`, so the session store is completely
unchanged and the claimed (query, answer) turn pair is NOT appended: the
history still has its previous 2 entries instead of the claimed 4. -/
theorem C2_counterexample :
    (process_legal_query testEnv [("s1", sessionA)] "explain more" "s1").2.1 =
      [("s1", sessionA)] ∧
    respIsFollowUp
      (process_legal_query testEnv [("s1", sessionA)] "explain more" "s1").1 =
      true ∧
    sessionA.history.length = 2 :=
  ⟨rfl, rfl, rfl⟩

/-- C2 (amended): on every request answered as a follow-up, the session's
`references` and `cases` fields are left unchanged and no (query, answer)
turn pair is appended: the session store is completely untouched. -/
theorem C2_follow_up_leaves_session_unchanged (env : Env) (st : Store)
    (q sid : String)
    (h : respIsFollowUp (process_legal_query env st q sid).1 = true) :
    (process_legal_query env st q sid).2.1 = st := by
  rw [process_flag_eq] at h
  rw [process_store_eq]
  unfold try_body at h ⊢
  by_cases h1 : (sanitize_query q).length < 3
  · rw [if_pos h1] at h
    exact absurd h (by simp [respIsFollowUp])
  · rw [if_neg h1] at h ⊢
    by_cases h2 : is_follow_up (sanitize_query q)
        (ConversationState.get_session st sid).2 = true
    · rw [if_pos h2, follow_branch_store]
      exact get_session_eq_of_follow_up st sid (sanitize_query q) h2
    · rw [if_neg h2] at h
      rw [fresh_branch_not_follow_up] at h
      exact absurd h (by simp)

theorem C2_follow_up_leaves_session_unchanged_witness :
    (process_legal_query testEnv [("s1", sessionA)] "please explain that again"
        "s1").2.1 = [("s1", sessionA)] :=
  C2_follow_up_leaves_session_unchanged testEnv [("s1", sessionA)]
    "please explain that again" "s1" rfl

/-! ### Claim C5 -/

/-- C5: `is_follow_up` returns false when the session has no prior resolved
turn, and otherwise returns true exactly when the lower-cased query contains
one of the five fixed continuation markers. -/
theorem C5_is_follow_up_spec (q : String) (s : Session) :
    is_follow_up q s = true ↔
      s.current_context ≠ none ∧
        ∃ m ∈ (["follow up", "previous", "explain", "more info",
            "about that"] : List String),
          pyContains (pyLower q) m = true := by
  unfold is_follow_up follow_up_indicators
  cases s.current_context with
  | none => simp
  | some ctx => simp [List.any_eq_true]

/-! ### Claim C6 -/

/-- C6: on the fresh branch, a failure raised by the retrieval call aborts
the request with an error surfaced to the caller, and the session store —
hence `current_context`, `references`, `cases` and `history` of every
session — is exactly what it was before the request. -/
theorem C6_retrieval_failure_no_session_mutation (env : Env) (st : Store)
    (q sid : String) (s : Session) (msg : String)
    (hs : storeGet st sid = some s)
    (hlen : ¬ (sanitize_query q).length < 3)
    (hf : is_follow_up (sanitize_query q) s = false)
    (hr : env.encode_search (sanitize_query q) 5 = .error msg) :
    process_legal_query env st q sid =
      (.error (500, msg), st, [Collab.embeddingSearch]) := by
  have hgs : ConversationState.get_session st sid = (st, s) := by
    unfold ConversationState.get_session
    rw [hs]
  have htb : try_body env st q sid =
      (.error (.other msg), st, [Collab.embeddingSearch]) := by
    unfold try_body
    rw [hgs, if_neg hlen]
    have h2 : ¬ is_follow_up (sanitize_query q) ((st, s) : Store × Session).2 = true := by
      simp [hf]
    rw [if_neg h2]
    unfold fresh_branch find_relevant_sections
    rw [hr]
  unfold process_legal_query
  rw [htb]
  rfl

theorem C6_retrieval_failure_no_session_mutation_witness :
    process_legal_query failRetrEnv [("s1", freshSession)]
        "road accident compensation" "s1" =
      (.error (500, "faiss index unavailable"), [("s1", freshSession)],
       [Collab.embeddingSearch]) :=
  C6_retrieval_failure_no_session_mutation failRetrEnv [("s1", freshSession)]
    "road accident compensation" "s1" freshSession "faiss index unavailable"
    (by decide) (by decide) (by decide) rfl

/-! ### Claim C7 -/

/-- C7: a query whose sanitized length is below 3 is rejected with the
`InvalidQuery` rejection (the `HTTPException(400, ...)` raised at the top of
the `try` block) before any collaborator is invoked: the collaborator trace
of the request is empty, so no embedding/index search, no generation call
and no browser fetch happens on that path. -/
theorem C7_short_query_rejected_before_collaborators (env : Env) (st : Store)
    (q sid : String) (h : (sanitize_query q).length < 3) :
    try_body env st q sid =
      (.error (.http 400 "Please ask a more detailed question."),
       (ConversationState.get_session st sid).1, []) := by
  unfold try_body
  rw [if_pos h]

theorem C7_short_query_rejected_before_collaborators_witness :
    try_body testEnv [] "hi" "default" =
      (.error (.http 400 "Please ask a more detailed question."),
       (ConversationState.get_session [] "default").1, []) :=
  C7_short_query_rejected_before_collaborators testEnv [] "hi" "default"
    (by decide)

/-! ### Claim C8 -/

/-- C8: a failure of the generation capability is caught inside
`generate_with_bart` and degrades to `""`; `generate_direct_answer` replaces
an empty generation result by the fixed fallback phrase, and therefore never
returns the empty string. -/
theorem C8_generation_fallback (env : Env) (input_text q context : String)
    (max_length : Nat) (msg : String)
    (hfail : env.gen input_text max_length = .error msg) :
    generate_with_bart env input_text max_length = "" ∧
    (generate_with_bart env (direct_answer_prompt q context) 200 = "" →
      generate_direct_answer env q context = "Immediate legal steps:") ∧
    generate_direct_answer env q context ≠ "" := by
  refine ⟨?_, ?_, ?_⟩
  · unfold generate_with_bart
    rw [hfail]
  · intro hempty
    unfold generate_direct_answer
    rw [if_pos hempty]
  · unfold generate_direct_answer
    by_cases hempty :
        generate_with_bart env (direct_answer_prompt q context) 200 = ""
    · rw [if_pos hempty]
      decide
    · rw [if_neg hempty]
      exact hempty

theorem C8_generation_fallback_witness :
    generate_with_bart failGenEnv "any prompt" 150 = "" ∧
    (generate_with_bart failGenEnv (direct_answer_prompt "What now" "") 200 = "" →
      generate_direct_answer failGenEnv "What now" "" = "Immediate legal steps:") ∧
    generate_direct_answer failGenEnv "What now" "" ≠ "" :=
  C8_generation_fallback failGenEnv "any prompt" "What now" "" 150
    "CUDA out of memory" rfl

/-! ### Claim C9 -/

/-- C9: the session invariant — the `references` and `cases` stored in
`current_context` equal the session's own fields, and the history length is
even — holds for every session in the store after any completed request,
provided it held before. -/
theorem C9_session_invariants_preserved (env : Env) (st : Store)
    (q sid : String) (h : StoreInv st) :
    StoreInv (process_legal_query env st q sid).2.1 := by
  rw [process_store_eq]
  exact try_body_store_inv env st q sid h

theorem C9_session_invariants_preserved_witness :
    StoreInv (process_legal_query testEnv [] "What is the penalty for theft"
        "s1").2.1 :=
  C9_session_invariants_preserved testEnv [] "What is the penalty for theft"
    "s1" (fun _ _ hx => Option.noConfusion hx)

/-! ### Claim C10 -/

/-- C10: session lookup precedes query validation, so even a request that is
rejected as too short installs a fresh empty session (no context, empty
history) for its session id when none existed. -/
theorem C10_session_created_before_validation (env : Env) (st : Store)
    (q sid : String)
    (habs : storeGet st sid = none)
    (hshort : (sanitize_query q).length < 3) :
    storeGet (process_legal_query env st q sid).2.1 sid = some freshSession ∧
    (process_legal_query env st q sid).1 =
      .error (500, "400: Please ask a more detailed question.") := by
  have hgs : ConversationState.get_session st sid =
      (storeSet st sid freshSession, freshSession) := by
    unfold ConversationState.get_session
    rw [habs]
  have htb : try_body env st q sid =
      (.error (.http 400 "Please ask a more detailed question."),
       storeSet st sid freshSession, []) := by
    unfold try_body
    rw [if_pos hshort, hgs]
  constructor
  · rw [process_store_eq, htb]
    exact storeGet_storeSet_self st sid freshSession
  · unfold process_legal_query
    rw [htb]
    rfl

theorem C10_session_created_before_validation_witness :
    storeGet (process_legal_query testEnv [] "hi" "default").2.1 "default" =
      some freshSession ∧
    (process_legal_query testEnv [] "hi" "default").1 =
      .error (500, "400: Please ask a more detailed question.") :=
  C10_session_created_before_validation testEnv [] "hi" "default" rfl
    (by decide)

end LegalAI
